import Mathlib

/-!
Verification of the pluggable diff reporting and approval-gating pipeline of
`packages/aws-cdk/lib/diff.ts` (functions `printStackDiff`, `printSecurityDiff`,
`difRequiresApproval`, `buildLogicalToPathMap`), shallowly embedded in Lean.

The structural diff algorithm (`@aws-cdk/cloudformation-diff`) and the artifact
metadata lookup (`@aws-cdk/cx-api`) are external collaborators of the module
under study; their results are modelled as plain data per the spec's data model
(a `TemplateDiff` record with `resources`, `isEmpty`, `differenceCount`,
`permissionsAnyChanges`, `permissionsBroadened`; an artifact with an ordered
list of metadata entries).  Side effects (renderer invocations, warnings,
informational prints) are modelled as an ordered event trace.
-/

namespace CdkDiff

/-- Templates are opaque documents: the module under study never inspects them,
it only hands them to the external diff algorithm. -/
abbrev Template := String

/-- Output streams, identified by name; `process.stderr` / `process.stdout` are
the defaults used by the code. -/
abbrev FormatStream := String

/-- Default stream for full diff reports (`stream || process.stderr`). -/
def processStderr : FormatStream := "process.stderr"

/-- Default stream for the security report path (`process.stdout`). -/
def processStdout : FormatStream := "process.stdout"

/-- Kinds of artifact metadata entries (`cxschema.ArtifactMetadataEntryType`);
the module under study uses `LOGICAL_ID` and (via its caller) `ERROR`. -/
inductive ArtifactMetadataEntryType where
  | LOGICAL_ID
  | ERROR
  | WARN
  | INFO
deriving DecidableEq, Repr

/-- A metadata entry `{ type, path, data }` attached to a stack artifact; for
`LOGICAL_ID` entries `data` is the logical resource identifier (the code casts
`md.data as string`). -/
structure MetadataEntry where
  type : ArtifactMetadataEntryType
  path : String
  data : String
deriving DecidableEq, Repr

/-- A per-resource change record of the diff result, tagged with the old and
new resource-type strings (either may be absent). -/
structure ResourceChange where
  oldResourceType : Option String
  newResourceType : Option String
deriving DecidableEq, Repr

/-- The diff result produced by the external diff algorithm
(`cfnDiff.diffTemplate`), with the fields the module under study consumes, per
the spec's data model: an optional ordered sequence of nullable per-resource
change records, the emptiness flag, the total difference count, and the two
permission-change flags. -/
structure TemplateDiff where
  resources : Option (List (Option ResourceChange))
  isEmpty : Bool
  differenceCount : Nat
  permissionsAnyChanges : Bool
  permissionsBroadened : Bool
deriving DecidableEq, Repr

/-- A stack artifact (`cxapi.CloudFormationStackArtifact`) as the module
consumes it: its template and its ordered metadata entries. -/
structure CloudFormationStackArtifact where
  template : Template
  metadata : List MetadataEntry
deriving DecidableEq, Repr

/-- Metadata lookup by entry kind (`cx-api`'s `findMetadataByType`): the
entries of the given kind, in metadata order. -/
def CloudFormationStackArtifact.findMetadataByType
    (stack : CloudFormationStackArtifact) (t : ArtifactMetadataEntryType) :
    List MetadataEntry :=
  stack.metadata.filter (fun md => md.type == t)

/-- A registered difference-formatter source; the module only reads its `name`
and invokes the renderer it produces, which the event trace records. -/
structure DifferenceFormatterSource where
  name : String
deriving DecidableEq, Repr

/-- The process-wide plugin host state read by the module
(`PluginHost.instance.differenceFormatterSources`), in registration order. -/
structure PluginHost where
  differenceFormatterSources : List DifferenceFormatterSource
deriving DecidableEq, Repr

/-- The approval levels (`enum RequireApproval`), a string-valued enum. -/
inductive RequireApproval where
  | Never
  | AnyChange
  | Broadening
deriving DecidableEq, Repr

/-- The string value of each `RequireApproval` enum member. -/
def RequireApproval.value : RequireApproval → String
  | .Never => "never"
  | .AnyChange => "any-change"
  | .Broadening => "broadening"

/-- The approval policy `difRequiresApproval(diff, requireApproval)`: a switch
on the (string-valued) approval level; the default branch throws
`Unrecognized approval level`.  Since the TS enum is erased at runtime, the
argument is the raw string value. -/
def difRequiresApproval (diff : TemplateDiff) (requireApproval : String) :
    Except String Bool :=
  if requireApproval = "never" then .ok false
  else if requireApproval = "any-change" then .ok diff.permissionsAnyChanges
  else if requireApproval = "broadening" then .ok diff.permissionsBroadened
  else .error ("Unrecognized approval level: " ++ requireApproval)

/-- A string-keyed mutable map (a plain JS object in the source), modelled as
an association list whose entries keep their original position on overwrite,
exactly like JS property assignment. -/
abbrev LogicalPathMap := List (String × String)

/-- JS property assignment `map[k] = v`: overwrite the entry for `k` in place
when one exists, otherwise append a new entry. -/
def mapInsert (m : LogicalPathMap) (k v : String) : LogicalPathMap :=
  if m.any (fun p => p.1 == k) then
    m.map (fun p => if p.1 == k then (k, v) else p)
  else m ++ [(k, v)]

/-- JS property read `map[k]`: the value stored for key `k`, if any. -/
def mapGet (m : LogicalPathMap) (k : String) : Option String :=
  (m.find? (fun p => p.1 == k)).map (fun p => p.2)

/-- The map from logical identifiers to construct paths
(`buildLogicalToPathMap`): assign `md.data ↦ md.path` for every `LOGICAL_ID`
metadata entry of the stack, in metadata order. -/
def buildLogicalToPathMap (stack : CloudFormationStackArtifact) :
    LogicalPathMap :=
  (stack.findMetadataByType ArtifactMetadataEntryType.LOGICAL_ID).foldl
    (fun m md => mapInsert m md.data md.path) []

/-- The predicate of the noise filter applied when `strict` is false: keep a
nullable resource-change record unless its new or old resource type is the
sentinel bookkeeping type `AWS::CDK::Metadata`; absent records pass the
leading null guard and are kept. -/
def keepResourceChange (change : Option ResourceChange) : Bool :=
  match change with
  | none => true
  | some c =>
    if c.newResourceType = some "AWS::CDK::Metadata" then false
    else if c.oldResourceType = some "AWS::CDK::Metadata" then false
    else true

/-- The in-place update `diff.resources = diff.resources.filter(...)` guarded
by `if (diff.resources && !strict)`: when `strict` is false and the resource
collection is present, replace it by its `keepResourceChange` filtering;
otherwise leave the diff unchanged. -/
def filterMetadataResources (strict : Bool) (diff : TemplateDiff) :
    TemplateDiff :=
  match diff.resources, strict with
  | some rs, false =>
    { diff with resources := some (rs.filter keepResourceChange) }
  | _, _ => diff

/-- The observable side effects of the reporting pipeline, in order: renderer
invocations (which renderer, on which stream, with which diff, path map and
context), informational prints, and warnings. -/
inductive RenderEvent where
  | pluginFormatDifferences (name : String) (stream : FormatStream)
      (diff : TemplateDiff) (map : LogicalPathMap) (context : Nat)
  | builtinFormatDifferences (stream : FormatStream) (diff : TemplateDiff)
      (map : LogicalPathMap) (context : Nat)
  | pluginFormatSecurityChanges (name : String) (stream : FormatStream)
      (diff : TemplateDiff) (map : LogicalPathMap)
  | builtinFormatSecurityChanges (stream : FormatStream) (diff : TemplateDiff)
      (map : LogicalPathMap)
  | printMessage (msg : String)
  | warningMessage (msg : String)
deriving DecidableEq, Repr

/-- The diff carried by a renderer-invocation event, if the event is one;
used to state that rendered output only ever sees the filtered diff. -/
def eventDiff : RenderEvent → Option TemplateDiff
  | .pluginFormatDifferences _ _ d _ _ => some d
  | .builtinFormatDifferences _ d _ _ => some d
  | .pluginFormatSecurityChanges _ _ d _ => some d
  | .builtinFormatSecurityChanges _ d _ => some d
  | .printMessage _ => none
  | .warningMessage _ => none

/-- The stack diff reporter `printStackDiff(oldTemplate, newTemplate, strict,
context, stream?)`: diff the two templates via the external algorithm, filter
sentinel bookkeeping resources unless `strict`, then either invoke every
registered formatter source (in registration order, on `stream ||
process.stderr`), or the single built-in `cfnDiff.formatDifferences`, or — on
an empty diff — print the no-differences notice; return the diff's
`differenceCount`.  The external diff algorithm is passed as a function
argument; side effects are returned as the event trace. -/
def printStackDiff (diffTemplate : Template → Template → TemplateDiff)
    (host : PluginHost) (oldTemplate : Template)
    (newTemplate : CloudFormationStackArtifact)
    (strict : Bool) (context : Nat) (stream : Option FormatStream) :
    Nat × List RenderEvent :=
  let diff := filterMetadataResources strict
    (diffTemplate oldTemplate newTemplate.template)
  let events :=
    if !diff.isEmpty then
      if host.differenceFormatterSources.length > 0 then
        host.differenceFormatterSources.map (fun source =>
          RenderEvent.pluginFormatDifferences source.name
            (stream.getD processStderr) diff
            (buildLogicalToPathMap newTemplate) context)
      else
        [RenderEvent.builtinFormatDifferences (stream.getD processStderr) diff
          (buildLogicalToPathMap newTemplate) context]
    else
      [RenderEvent.printMessage "There were no differences"]
  (diff.differenceCount, events)

/-- The security approval evaluator `printSecurityDiff(oldTemplate,
newTemplate, requireApproval)`: diff the two templates (unfiltered), apply the
approval policy; when approval is required, emit the two warnings (the first
naming the approval level) and invoke every registered formatter source's
security-only rendering on `process.stdout` (or the built-in
`cfnDiff.formatSecurityChanges` when none is registered) and return true;
when not required return false with no side effect; an unrecognized approval
level propagates the thrown error. -/
def printSecurityDiff (diffTemplate : Template → Template → TemplateDiff)
    (host : PluginHost) (oldTemplate : Template)
    (newTemplate : CloudFormationStackArtifact)
    (requireApproval : String) : Except String (Bool × List RenderEvent) :=
  let diff := diffTemplate oldTemplate newTemplate.template
  match difRequiresApproval diff requireApproval with
  | .error e => .error e
  | .ok true =>
    let renders :=
      if host.differenceFormatterSources.length > 0 then
        host.differenceFormatterSources.map (fun source =>
          RenderEvent.pluginFormatSecurityChanges source.name processStdout
            diff (buildLogicalToPathMap newTemplate))
      else
        [RenderEvent.builtinFormatSecurityChanges processStdout diff
          (buildLogicalToPathMap newTemplate)]
    .ok (true,
      RenderEvent.warningMessage
        ("This deployment will make potentially sensitive changes according to your current security approval level (--require-approval "
          ++ requireApproval ++ ").") ::
      RenderEvent.warningMessage
        "Please confirm you intend to make the following modifications:\n" ::
      renders)
  | .ok false => .ok (false, [])

/-- Failure of the reporting pipeline on invalid input. -/
inductive DiffError where
  | DiffInputInvalidError (paths : List String)
deriving DecidableEq, Repr

/-- Modelled from the spec: the `reportDiff` operation of §4.2.  Its first
step — validating that the new artifact carries no `ERROR`-kind metadata
entries and failing with a `DiffInputInvalidError` naming the offending paths,
without computing a diff for an invalid input — is performed by the CLI
toolkit layer whose source is not among the modules under study (only its
test is); the remaining steps are `printStackDiff` as embedded above. -/
def reportDiff (diffTemplate : Template → Template → TemplateDiff)
    (host : PluginHost) (oldTemplate : Template)
    (newTemplate : CloudFormationStackArtifact)
    (strict : Bool) (context : Nat) (stream : Option FormatStream) :
    Except DiffError (Nat × List RenderEvent) :=
  let errs := newTemplate.findMetadataByType ArtifactMetadataEntryType.ERROR
  if errs.isEmpty then
    .ok (printStackDiff diffTemplate host oldTemplate newTemplate strict
      context stream)
  else
    .error (DiffError.DiffInputInvalidError (errs.map MetadataEntry.path))

theorem find?_substitute_self (k v : String) (m : LogicalPathMap)
    (h : m.any (fun p => p.1 == k) = true) :
    (m.map (fun p => if p.1 == k then (k, v) else p)).find?
      (fun p => p.1 == k) = some (k, v) := by
  induction m with
  | nil => simp at h
  | cons p rest ih =>
    show ((if p.1 == k then (k, v) else p) :: _).find? _ = _
    by_cases hp : (p.1 == k) = true
    · rw [if_pos hp]
      simp only [List.find?_cons, beq_self_eq_true]
    · have hp' : (p.1 == k) = false := by simpa using hp
      rw [if_neg hp]
      simp only [List.find?_cons, hp']
      simp only [List.any_cons, Bool.or_eq_true] at h
      exact ih (h.resolve_left hp)

theorem find?_substitute_other (k k' v : String) (h : k' ≠ k)
    (m : LogicalPathMap) :
    (m.map (fun p => if p.1 == k then (k, v) else p)).find?
      (fun p => p.1 == k') = m.find? (fun p => p.1 == k') := by
  induction m with
  | nil => rfl
  | cons p rest ih =>
    show ((if p.1 == k then (k, v) else p) :: _).find? _ = _
    by_cases hp : (p.1 == k) = true
    · have hpk : p.1 = k := by simpa using hp
      have hkk : ((k : String) == k') = false :=
        beq_eq_false_iff_ne.mpr (Ne.symm h)
      rw [if_pos hp]
      simp only [List.find?_cons, hpk, hkk, ih]
    · rw [if_neg hp]
      by_cases hq : (p.1 == k') = true
      · simp only [List.find?_cons, hq]
      · have hq' : (p.1 == k') = false := by simpa using hq
        simp only [List.find?_cons, hq', ih]

theorem mapGet_mapInsert_self (m : LogicalPathMap) (k v : String) :
    mapGet (mapInsert m k v) k = some v := by
  unfold mapInsert mapGet
  by_cases h : m.any (fun p => p.1 == k) = true
  · rw [if_pos h, find?_substitute_self k v m h]
    rfl
  · rw [if_neg h, List.find?_append]
    have hm : m.find? (fun p => p.1 == k) = none := by
      rw [List.find?_eq_none]
      intro p hp
      simp only [List.any_eq_true, not_exists, not_and] at h
      exact h p hp
    rw [hm, Option.none_or, List.find?_cons_of_pos _ (by simp)]
    rfl

theorem mapGet_mapInsert_ne (m : LogicalPathMap) (k k' v : String)
    (h : k' ≠ k) : mapGet (mapInsert m k v) k' = mapGet m k' := by
  unfold mapInsert mapGet
  by_cases ha : m.any (fun p => p.1 == k) = true
  · rw [if_pos ha, find?_substitute_other k k' v h m]
  · rw [if_neg ha, List.find?_append]
    have hk : List.find? (fun p => p.1 == k') [(k, v)] = none := by
      rw [List.find?_eq_none]
      intro p hp
      simp only [List.mem_singleton] at hp
      subst hp
      simpa using Ne.symm h
    rw [hk, Option.or_none]

theorem find?_filter_eq (p q : MetadataEntry → Bool) (l : List MetadataEntry) :
    (l.filter p).find? q = l.find? (fun x => p x && q x) := by
  induction l with
  | nil => rfl
  | cons x l ih =>
    by_cases hp : p x = true
    · by_cases hq : q x = true
      · simp [List.filter_cons, List.find?_cons, hp, hq]
      · have hq' : q x = false := by simpa using hq
        simp [List.filter_cons, List.find?_cons, hp, hq', ih]
    · have hp' : p x = false := by simpa using hp
      simp [List.filter_cons, List.find?_cons, hp', ih]

theorem mapGet_foldl_mapInsert (k : String) (l : List MetadataEntry)
    (m : LogicalPathMap) :
    mapGet (l.foldl (fun m md => mapInsert m md.data md.path) m) k =
      ((l.reverse.find? (fun md => md.data == k)).map
        MetadataEntry.path).or (mapGet m k) := by
  induction l generalizing m with
  | nil => simp
  | cons md l ih =>
    show mapGet (l.foldl _ (mapInsert m md.data md.path)) k = _
    rw [ih, List.reverse_cons, List.find?_append]
    cases hf : l.reverse.find? (fun md => md.data == k) with
    | some md₀ => simp
    | none =>
      by_cases hd : (md.data == k) = true
      · have hdk : md.data = k := by simpa using hd
        rw [hdk, mapGet_mapInsert_self]
        simp [List.find?_cons, hd, hdk]
      · have hd' : (md.data == k) = false := by simpa using hd
        have hne : k ≠ md.data := fun e => by simp [e] at hd'
        rw [mapGet_mapInsert_ne _ _ _ _ hne]
        simp [List.find?_cons, hd']

/-- CLAIM C9: `buildLogicalToPathMap` maps, for every `LOGICAL_ID` metadata
entry, the entry's `data` (the resource identifier) to the entry's `path`;
when two entries carry the same identifier the later one in metadata order
wins (the lookup is the first match over the reversed entry list), and entries
of other kinds contribute nothing. -/
theorem buildLogicalToPathMap_spec (stack : CloudFormationStackArtifact)
    (k : String) :
    mapGet (buildLogicalToPathMap stack) k =
      ((stack.findMetadataByType ArtifactMetadataEntryType.LOGICAL_ID).reverse.find?
        (fun md => md.data == k)).map MetadataEntry.path ∧
    mapGet (buildLogicalToPathMap stack) k =
      (stack.metadata.reverse.find? (fun md =>
        (md.type == ArtifactMetadataEntryType.LOGICAL_ID) && md.data == k)).map
        MetadataEntry.path := by
  have h1 : mapGet (buildLogicalToPathMap stack) k =
      ((stack.findMetadataByType ArtifactMetadataEntryType.LOGICAL_ID).reverse.find?
        (fun md => md.data == k)).map MetadataEntry.path := by
    unfold buildLogicalToPathMap
    rw [mapGet_foldl_mapInsert]
    simp [mapGet]
  refine ⟨h1, h1.trans ?_⟩
  unfold CloudFormationStackArtifact.findMetadataByType
  rw [← List.filter_reverse, find?_filter_eq]

/-- CLAIM C1: the approval policy is a pure, total function of
`(permissionsAnyChanges, permissionsBroadened, approvalLevel)`: `Never` yields
false for every diff, `AnyChange` yields exactly `permissionsAnyChanges`,
`Broadening` yields exactly `permissionsBroadened`, so with `Broadening` and
`permissionsBroadened` false no approval is required even when
`permissionsAnyChanges` is true. -/
theorem difRequiresApproval_policy (diff : TemplateDiff) :
    difRequiresApproval diff RequireApproval.Never.value = .ok false ∧
    difRequiresApproval diff RequireApproval.AnyChange.value =
      .ok diff.permissionsAnyChanges ∧
    difRequiresApproval diff RequireApproval.Broadening.value =
      .ok diff.permissionsBroadened ∧
    difRequiresApproval
      { diff with permissionsBroadened := false, permissionsAnyChanges := true }
      RequireApproval.Broadening.value = .ok false := by
  refine ⟨?_, ?_, ?_, ?_⟩ <;>
    simp [difRequiresApproval, RequireApproval.value]

theorem filterMetadataResources_differenceCount (strict : Bool)
    (diff : TemplateDiff) :
    (filterMetadataResources strict diff).differenceCount =
      diff.differenceCount := by
  cases hr : diff.resources <;> cases strict <;>
    simp [filterMetadataResources, hr]

/-- CLAIM C5: `printStackDiff` returns the unfiltered `differenceCount`
produced by the external diff algorithm; the strict==false filtering of
sentinel bookkeeping resources affects only what is rendered, never the
integer returned to the caller. -/
theorem printStackDiff_returns_unfiltered_count
    (dt : Template → Template → TemplateDiff) (host : PluginHost)
    (old : Template) (new : CloudFormationStackArtifact)
    (strict : Bool) (ctx : Nat) (stream : Option FormatStream) :
    (printStackDiff dt host old new strict ctx stream).1 =
      (dt old new.template).differenceCount := by
  simp only [printStackDiff]
  exact filterMetadataResources_differenceCount strict (dt old new.template)

/-- CLAIM C4: for every input whose (possibly filtered) diff result is empty
— and hence, by the diff algorithm's invariant `isEmpty ⇒ differenceCount =
0`, carries a zero count — `printStackDiff` invokes no renderer, emits the
informational no-differences notice, and returns 0. -/
theorem printStackDiff_empty_diff
    (dt : Template → Template → TemplateDiff) (host : PluginHost)
    (old : Template) (new : CloudFormationStackArtifact)
    (strict : Bool) (ctx : Nat) (stream : Option FormatStream)
    (h1 : (filterMetadataResources strict (dt old new.template)).isEmpty = true)
    (h2 : (filterMetadataResources strict
      (dt old new.template)).differenceCount = 0) :
    printStackDiff dt host old new strict ctx stream =
      (0, [RenderEvent.printMessage "There were no differences"]) := by
  simp only [printStackDiff, h1, h2, Bool.not_true, Bool.false_eq_true,
    if_false]

theorem printStackDiff_empty_diff_witness :
    printStackDiff
      (fun _ _ => (⟨some [], true, 0, false, false⟩ : TemplateDiff))
      ⟨[]⟩ "old" ⟨"new", []⟩ false 3 none =
      (0, [RenderEvent.printMessage "There were no differences"]) :=
  printStackDiff_empty_diff _ _ _ _ _ _ _ rfl rfl

theorem keepResourceChange_eq_true (ch : ResourceChange)
    (h : keepResourceChange (some ch) = true) :
    ch.oldResourceType ≠ some "AWS::CDK::Metadata" ∧
    ch.newResourceType ≠ some "AWS::CDK::Metadata" := by
  by_cases hn : ch.newResourceType = some "AWS::CDK::Metadata"
  · simp [keepResourceChange, hn] at h
  · by_cases ho : ch.oldResourceType = some "AWS::CDK::Metadata"
    · simp [keepResourceChange, hn, ho] at h
    · exact ⟨ho, hn⟩

theorem printStackDiff_eventDiff
    (dt : Template → Template → TemplateDiff) (host : PluginHost)
    (old : Template) (new : CloudFormationStackArtifact)
    (strict : Bool) (ctx : Nat) (stream : Option FormatStream) :
    ∀ e ∈ (printStackDiff dt host old new strict ctx stream).2,
      ∀ d, eventDiff e = some d →
        d = filterMetadataResources strict (dt old new.template) := by
  intro e he d hd
  simp only [printStackDiff] at he
  by_cases h1 :
      (filterMetadataResources strict (dt old new.template)).isEmpty = true
  · simp only [h1, Bool.not_true, Bool.false_eq_true, if_false,
      List.mem_singleton] at he
    subst he
    simp [eventDiff] at hd
  · have h1' :
        (filterMetadataResources strict (dt old new.template)).isEmpty =
          false := by simpa using h1
    simp only [h1', Bool.not_false, if_true] at he
    by_cases h2 : host.differenceFormatterSources.length > 0
    · rw [if_pos h2] at he
      obtain ⟨source, _, rfl⟩ := List.mem_map.mp he
      simpa [eventDiff] using hd.symm
    · rw [if_neg h2, List.mem_singleton] at he
      subst he
      simpa [eventDiff] using hd.symm

/-- CLAIM C6: when `strict` is false, every resource-change record whose old
or new resource type equals the sentinel bookkeeping type
`AWS::CDK::Metadata` is removed before rendering — no record of the filtered
resources, and hence no diff handed to any renderer, mentions such a resource
— while when `strict` is true no record is filtered out. -/
theorem filterMetadataResources_sentinel (diff : TemplateDiff) :
    filterMetadataResources true diff = diff ∧
    (∀ rs', (filterMetadataResources false diff).resources = some rs' →
      ∀ ch : ResourceChange, some ch ∈ rs' →
        ch.oldResourceType ≠ some "AWS::CDK::Metadata" ∧
        ch.newResourceType ≠ some "AWS::CDK::Metadata") ∧
    (∀ (dt : Template → Template → TemplateDiff) (host : PluginHost)
      (old : Template) (new : CloudFormationStackArtifact) (ctx : Nat)
      (stream : Option FormatStream),
      dt old new.template = diff →
      ∀ e ∈ (printStackDiff dt host old new false ctx stream).2,
        ∀ d, eventDiff e = some d →
          ∀ rs', d.resources = some rs' →
            ∀ ch : ResourceChange, some ch ∈ rs' →
              ch.oldResourceType ≠ some "AWS::CDK::Metadata" ∧
              ch.newResourceType ≠ some "AWS::CDK::Metadata") := by
  have hstrict : filterMetadataResources true diff = diff := by
    cases hr : diff.resources <;> simp [filterMetadataResources, hr]
  have hmem : ∀ rs', (filterMetadataResources false diff).resources =
      some rs' → ∀ ch : ResourceChange, some ch ∈ rs' →
      ch.oldResourceType ≠ some "AWS::CDK::Metadata" ∧
      ch.newResourceType ≠ some "AWS::CDK::Metadata" := by
    intro rs' hrs ch hch
    cases hr : diff.resources with
    | none => simp [filterMetadataResources, hr] at hrs
    | some rs =>
      simp only [filterMetadataResources, hr] at hrs
      obtain rfl : rs.filter keepResourceChange = rs' :=
        Option.some_injective _ hrs
      exact keepResourceChange_eq_true ch (List.mem_filter.mp hch).2
  refine ⟨hstrict, hmem, ?_⟩
  intro dt host old new ctx stream hdt e he d hd rs' hrs ch hch
  have hde : d = filterMetadataResources false (dt old new.template) :=
    printStackDiff_eventDiff dt host old new false ctx stream e he d hd
  rw [hdt] at hde
  subst hde
  exact hmem rs' hrs ch hch

theorem filterMetadataResources_sentinel_witness :
    ((⟨none, some "A"⟩ : ResourceChange).oldResourceType ≠
      some "AWS::CDK::Metadata") ∧
    ((⟨none, some "A"⟩ : ResourceChange).newResourceType ≠
      some "AWS::CDK::Metadata") :=
  (filterMetadataResources_sentinel
    ⟨some [some ⟨some "AWS::CDK::Metadata", none⟩, none,
      some ⟨none, some "A"⟩], false, 2, false, false⟩).2.1
    [none, some ⟨none, some "A"⟩] (by decide)
    ⟨none, some "A"⟩ (by decide)

/-- CLAIM C7: for every non-empty (filtered) diff, `printStackDiff` with an
empty registry performs exactly one built-in renderer invocation, and with N
registered sources performs exactly the N plugin invocations, one per source,
in registration order, each against the same output stream, with the built-in
default not among them. -/
theorem printStackDiff_renderer_invocations
    (dt : Template → Template → TemplateDiff) (host : PluginHost)
    (old : Template) (new : CloudFormationStackArtifact)
    (strict : Bool) (ctx : Nat) (stream : Option FormatStream)
    (hne : (filterMetadataResources strict (dt old new.template)).isEmpty =
      false) :
    (host.differenceFormatterSources = [] →
      (printStackDiff dt host old new strict ctx stream).2 =
        [RenderEvent.builtinFormatDifferences (stream.getD processStderr)
          (filterMetadataResources strict (dt old new.template))
          (buildLogicalToPathMap new) ctx]) ∧
    (host.differenceFormatterSources ≠ [] →
      (printStackDiff dt host old new strict ctx stream).2 =
        host.differenceFormatterSources.map (fun source =>
          RenderEvent.pluginFormatDifferences source.name
            (stream.getD processStderr)
            (filterMetadataResources strict (dt old new.template))
            (buildLogicalToPathMap new) ctx) ∧
      ∀ (s : FormatStream) (d : TemplateDiff) (m : LogicalPathMap) (c : Nat),
        RenderEvent.builtinFormatDifferences s d m c ∉
          (printStackDiff dt host old new strict ctx stream).2) := by
  constructor
  · intro hempty
    simp [printStackDiff, hne, hempty]
  · intro hnonempty
    have hlen : 0 < host.differenceFormatterSources.length :=
      List.length_pos.mpr hnonempty
    have hmap : (printStackDiff dt host old new strict ctx stream).2 =
        host.differenceFormatterSources.map (fun source =>
          RenderEvent.pluginFormatDifferences source.name
            (stream.getD processStderr)
            (filterMetadataResources strict (dt old new.template))
            (buildLogicalToPathMap new) ctx) := by
      simp [printStackDiff, hne, hlen]
    refine ⟨hmap, ?_⟩
    intro s d m c hmem
    rw [hmap] at hmem
    obtain ⟨src, -, heq⟩ := List.mem_map.mp hmem
    exact RenderEvent.noConfusion heq

theorem printStackDiff_renderer_invocations_witness :
    (printStackDiff
      (fun _ _ => (⟨none, false, 1, false, false⟩ : TemplateDiff))
      ⟨[]⟩ "old" ⟨"new", []⟩ true 3 none).2 =
      [RenderEvent.builtinFormatDifferences (Option.getD none processStderr)
        (filterMetadataResources true ⟨none, false, 1, false, false⟩)
        (buildLogicalToPathMap ⟨"new", []⟩) 3] :=
  (printStackDiff_renderer_invocations
    (fun _ _ => (⟨none, false, 1, false, false⟩ : TemplateDiff))
    ⟨[]⟩ "old" ⟨"new", []⟩ true 3 none rfl).1 rfl

/-- CLAIM C3: `printSecurityDiff` returns true exactly when the approval
policy requires approval; in that case it emits the warnings (the first
naming the approval level) and invokes the security-only rendering of every
registered source, or of the single built-in default when the registry is
empty; when the policy does not require approval it returns false with no
rendering and no side effect. -/
theorem printSecurityDiff_gating
    (dt : Template → Template → TemplateDiff) (host : PluginHost)
    (old : Template) (new : CloudFormationStackArtifact) (level : String) :
    (difRequiresApproval (dt old new.template) level = .ok true →
      printSecurityDiff dt host old new level = .ok (true,
        RenderEvent.warningMessage
          ("This deployment will make potentially sensitive changes according to your current security approval level (--require-approval "
            ++ level ++ ").") ::
        RenderEvent.warningMessage
          "Please confirm you intend to make the following modifications:\n" ::
        (if host.differenceFormatterSources.length > 0 then
          host.differenceFormatterSources.map (fun source =>
            RenderEvent.pluginFormatSecurityChanges source.name processStdout
              (dt old new.template) (buildLogicalToPathMap new))
        else
          [RenderEvent.builtinFormatSecurityChanges processStdout
            (dt old new.template) (buildLogicalToPathMap new)]))) ∧
    (difRequiresApproval (dt old new.template) level = .ok false →
      printSecurityDiff dt host old new level = .ok (false, [])) ∧
    (∀ evs, printSecurityDiff dt host old new level = .ok (true, evs) →
      difRequiresApproval (dt old new.template) level = .ok true) := by
  refine ⟨fun h => ?_, fun h => ?_, fun evs h => ?_⟩
  · simp [printSecurityDiff, h]
  · simp [printSecurityDiff, h]
  · cases hd : difRequiresApproval (dt old new.template) level with
    | error e =>
      simp [printSecurityDiff, hd] at h
    | ok b =>
      cases b with
      | true => rfl
      | false =>
        simp [printSecurityDiff, hd] at h

theorem printSecurityDiff_gating_witness :
    printSecurityDiff
      (fun _ _ => (⟨none, false, 0, false, false⟩ : TemplateDiff))
      ⟨[]⟩ "old" ⟨"new", []⟩ "never" = .ok (false, []) :=
  (printSecurityDiff_gating _ _ _ _ _).2.1 rfl

/-- CLAIM C8: invoking the approval evaluation with an approval level outside
the defined enum values fails with the unrecognized-approval-level error
(`UnknownApprovalLevelError` in the spec's taxonomy), the failure propagates
out of `printSecurityDiff`, and no boolean result is produced. -/
theorem difRequiresApproval_unknown_level (diff : TemplateDiff)
    (dt : Template → Template → TemplateDiff) (host : PluginHost)
    (old : Template) (new : CloudFormationStackArtifact) (level : String)
    (h1 : level ≠ "never") (h2 : level ≠ "any-change")
    (h3 : level ≠ "broadening") :
    difRequiresApproval diff level =
      .error ("Unrecognized approval level: " ++ level) ∧
    printSecurityDiff dt host old new level =
      .error ("Unrecognized approval level: " ++ level) := by
  have hg : ∀ d : TemplateDiff, difRequiresApproval d level =
      .error ("Unrecognized approval level: " ++ level) := by
    intro d
    unfold difRequiresApproval
    rw [if_neg h1, if_neg h2, if_neg h3]
  refine ⟨hg diff, ?_⟩
  simp [printSecurityDiff, hg (dt old new.template)]

theorem difRequiresApproval_unknown_level_witness :
    difRequiresApproval ⟨none, false, 0, false, false⟩ "foo" =
      .error ("Unrecognized approval level: " ++ "foo") ∧
    printSecurityDiff
      (fun _ _ => (⟨none, false, 0, false, false⟩ : TemplateDiff))
      ⟨[]⟩ "old" ⟨"new", []⟩ "foo" =
      .error ("Unrecognized approval level: " ++ "foo") :=
  difRequiresApproval_unknown_level _ _ _ _ _ "foo"
    (by decide) (by decide) (by decide)

/-- CLAIM C2: for every old template and every new artifact carrying at least
one ERROR-kind metadata entry, `reportDiff` fails with a
`DiffInputInvalidError` naming the offending paths, and no structural diff is
computed or rendered, regardless of the template content. -/
theorem reportDiff_error_metadata
    (dt : Template → Template → TemplateDiff) (host : PluginHost)
    (old : Template) (new : CloudFormationStackArtifact)
    (strict : Bool) (ctx : Nat) (stream : Option FormatStream)
    (h : ∃ md ∈ new.metadata, md.type = ArtifactMetadataEntryType.ERROR) :
    reportDiff dt host old new strict ctx stream =
      .error (DiffError.DiffInputInvalidError
        ((new.findMetadataByType ArtifactMetadataEntryType.ERROR).map
          MetadataEntry.path)) := by
  obtain ⟨md, hmem, htype⟩ := h
  have hmd : md ∈ new.findMetadataByType ArtifactMetadataEntryType.ERROR :=
    List.mem_filter.mpr ⟨hmem, by simp [htype]⟩
  have hnil : new.findMetadataByType ArtifactMetadataEntryType.ERROR ≠ [] :=
    List.ne_nil_of_mem hmd
  have hne : (new.findMetadataByType
      ArtifactMetadataEntryType.ERROR).isEmpty = false := by
    cases hq : new.findMetadataByType ArtifactMetadataEntryType.ERROR with
    | nil => exact absurd hq hnil
    | cons a l => rfl
  simp [reportDiff, hne]

theorem reportDiff_error_metadata_witness :
    reportDiff (fun _ _ => (⟨none, false, 1, false, false⟩ : TemplateDiff))
      ⟨[]⟩ "old"
      ⟨"new",
        [⟨ArtifactMetadataEntryType.ERROR, "/resource", "this is an error"⟩]⟩
      false 3 none =
      .error (DiffError.DiffInputInvalidError
        ((CloudFormationStackArtifact.findMetadataByType
          ⟨"new",
            [⟨ArtifactMetadataEntryType.ERROR, "/resource",
              "this is an error"⟩]⟩
          ArtifactMetadataEntryType.ERROR).map MetadataEntry.path)) :=
  reportDiff_error_metadata _ _ _ _ _ _ _
    ⟨⟨ArtifactMetadataEntryType.ERROR, "/resource", "this is an error"⟩,
      by decide, rfl⟩

/-- CLAIM C10: the non-strict filter is total over nullable change records:
absent records satisfy the filter predicate (the null guard precedes any
access to the resource types), so every null record of the resource sequence
is retained by the strict==false filtering and none is dropped. -/
theorem filterMetadataResources_null_records (diff : TemplateDiff)
    (rs : List (Option ResourceChange)) (h : diff.resources = some rs) :
    keepResourceChange none = true ∧
    (filterMetadataResources false diff).resources =
      some (rs.filter keepResourceChange) ∧
    (∀ c : Option ResourceChange, c ∈ rs → c = none →
      c ∈ rs.filter keepResourceChange) ∧
    (rs.filter keepResourceChange).count none = rs.count none := by
  refine ⟨rfl, ?_, ?_, ?_⟩
  · simp [filterMetadataResources, h]
  · intro c hc hcn
    subst hcn
    exact List.mem_filter.mpr ⟨hc, rfl⟩
  · exact List.count_filter rfl

theorem filterMetadataResources_null_records_witness :
    keepResourceChange none = true ∧
    (filterMetadataResources false
      ⟨some [none, some ⟨some "AWS::CDK::Metadata", none⟩, none],
        false, 1, false, false⟩).resources =
      some ([none, some ⟨some "AWS::CDK::Metadata", none⟩, none].filter
        keepResourceChange) ∧
    ([none, some ⟨some "AWS::CDK::Metadata", none⟩,
      (none : Option ResourceChange)].filter keepResourceChange).count none =
      [none, some ⟨some "AWS::CDK::Metadata", none⟩,
        (none : Option ResourceChange)].count none :=
  ⟨(filterMetadataResources_null_records
      ⟨some [none, some ⟨some "AWS::CDK::Metadata", none⟩, none],
        false, 1, false, false⟩ _ rfl).1,
   (filterMetadataResources_null_records
      ⟨some [none, some ⟨some "AWS::CDK::Metadata", none⟩, none],
        false, 1, false, false⟩ _ rfl).2.1,
   (filterMetadataResources_null_records
      ⟨some [none, some ⟨some "AWS::CDK::Metadata", none⟩, none],
        false, 1, false, false⟩ _ rfl).2.2.2⟩

end CdkDiff
